import Mathlib

/-!
Shallow embedding of `src/index.ts`: a minimal push-based Observable/Observer
pair. The consumer-supplied callbacks (`next`, `error`, `complete`) and the
producer-supplied teardown are opaque side-effecting functions in the source;
here their invocations are recorded as events in a trace, and the Observer's
mutable fields become an explicit state record threaded through each method.
`α` is the payload type (in the source, `IRequestObject`), `ε` the error type
(in the source, `never`).
-/

/-- Events observable from outside the core: an invocation of one of the three
consumer callbacks, or a run of the producer-supplied teardown action. -/
inductive Event (α ε : Type) where
  | onNext : α → Event α ε
  | onError : ε → Event α ε
  | onComplete : Event α ε
  | teardownRun : Event α ε
deriving DecidableEq

/-- Embeds `IHandlers`. The source interface declares all three callbacks, but
`Observer.next` guards on `this._handlers.next` being truthy (and the spec
treats each callback as optional), so the embedding records for each callback
whether it is present; its invocations are trace events. -/
structure IHandlers where
  next : Bool
  error : Bool
  complete : Bool
deriving DecidableEq

/-- Embeds the mutable state of `class Observer`: `_handlers` (immutable after
construction), `_isUnsubscribed` (initially `false`), and `_unsubscribe`, the
optionally-attached teardown action, modelled by whether one is attached. -/
structure Observer where
  handlers : IHandlers
  isUnsubscribed : Bool
  teardown : Bool
deriving DecidableEq

/-- Embeds `constructor(handlers)`: stores the handlers; `_isUnsubscribed`
starts `false`; no teardown attached yet (`_unsubscribe` is `undefined`). -/
def Observer.make (h : IHandlers) : Observer :=
  { handlers := h, isUnsubscribed := false, teardown := false }

/-- Embeds `Observer.next(value)` (src/index.ts lines 69-73): if
`this._handlers.next && !this._isUnsubscribed`, invoke the handler with the
value (an `onNext` event); otherwise do nothing. The state is never changed. -/
def Observer.next {α ε : Type} (s : Observer) (v : α) : Observer × List (Event α ε) :=
  if s.handlers.next && !s.isUnsubscribed then
    (s, [Event.onNext v])
  else
    (s, [])

/-- Embeds `Observer.unsubscribe()` (src/index.ts lines 95-101): set
`_isUnsubscribed = true`, then, if a teardown is attached (`this._unsubscribe`
is defined), run it. Note the source has no guard on the previous value of
`_isUnsubscribed`: the teardown runs on every call where one is attached. -/
def Observer.unsubscribe {α ε : Type} (s : Observer) : Observer × List (Event α ε) :=
  if s.teardown then
    ({ s with isUnsubscribed := true }, [Event.teardownRun])
  else
    ({ s with isUnsubscribed := true }, [])

/-- Embeds `Observer.error(error)` (src/index.ts lines 75-83): if not yet
unsubscribed, invoke the error handler when present, then call
`this.unsubscribe()` unconditionally; else do nothing. -/
def Observer.error {α ε : Type} (s : Observer) (e : ε) : Observer × List (Event α ε) :=
  if !s.isUnsubscribed then
    ((Observer.unsubscribe (α := α) (ε := ε) s).1,
      (if s.handlers.error then [Event.onError e] else []) ++
        (Observer.unsubscribe (α := α) (ε := ε) s).2)
  else
    (s, [])

/-- Embeds `Observer.complete()` (src/index.ts lines 85-93): if not yet
unsubscribed, invoke the complete handler when present, then call
`this.unsubscribe()` unconditionally; else do nothing. -/
def Observer.complete {α ε : Type} (s : Observer) : Observer × List (Event α ε) :=
  if !s.isUnsubscribed then
    ((Observer.unsubscribe (α := α) (ε := ε) s).1,
      (if s.handlers.complete then [Event.onComplete] else []) ++
        (Observer.unsubscribe (α := α) (ε := ε) s).2)
  else
    (s, [])

/-- One call a caller (a synchronous producer, or the holder of the
subscription handle) can make on an Observer. -/
inductive Op (α ε : Type) where
  | next : α → Op α ε
  | error : ε → Op α ε
  | complete : Op α ε
  | unsubscribe : Op α ε
deriving DecidableEq

/-- Dispatch one call to the corresponding Observer method. -/
def applyOp {α ε : Type} (s : Observer) : Op α ε → Observer × List (Event α ε)
  | Op.next v => Observer.next s v
  | Op.error e => Observer.error s e
  | Op.complete => Observer.complete s
  | Op.unsubscribe => Observer.unsubscribe s

/-- Run a sequence of calls on an Observer, collecting the emitted events in
order. -/
def applyOps {α ε : Type} (s : Observer) : List (Op α ε) → Observer × List (Event α ε)
  | [] => (s, [])
  | op :: ops =>
      ((applyOps (applyOp s op).1 ops).1,
        (applyOp s op).2 ++ (applyOps (applyOp s op).1 ops).2)

/-- Embeds `class Observable`: it stores a single producer (`_subscribe`, a
`TSubscribeFunc`). A synchronous producer is embedded as the sequence of calls
it makes on the Observer it is given; its returned teardown action (the source
type always returns one) is modelled by the attach step in `subscribe`. -/
structure Observable (α ε : Type) where
  producerCalls : List (Op α ε)

/-- Embeds `Observable.subscribe(obs)` (src/index.ts lines 123-135): build a
fresh Observer from the handlers, synchronously run the producer with it, and
only after the producer returns assign its returned teardown to
`observer._unsubscribe`. The result is the Observer held by the returned
handle (whose only capability, `unsubscribe()`, forwards to
`Observer.unsubscribe`) together with the events emitted during the call. -/
def Observable.subscribe {α ε : Type} (o : Observable α ε) (h : IHandlers) :
    Observer × List (Event α ε) :=
  ({ (applyOps (Observer.make h) o.producerCalls).1 with teardown := true },
    (applyOps (Observer.make h) o.producerCalls).2)

/-- Embeds the static `Observable.from(values)` (src/index.ts lines 111-121):
its producer calls `observer.next(value)` for each value in order, then
`observer.complete()`, and returns a teardown that logs `unsubscribed`.
Named `fromList` because `from` is a reserved word in Lean. -/
def Observable.fromList {α ε : Type} (values : List α) : Observable α ε :=
  { producerCalls := values.map Op.next ++ [Op.complete] }

/-- Number of `onNext` handler invocations in a trace. -/
def countOnNext {α ε : Type} : List (Event α ε) → Nat
  | [] => 0
  | Event.onNext _ :: es => countOnNext es + 1
  | Event.onError _ :: es => countOnNext es
  | Event.onComplete :: es => countOnNext es
  | Event.teardownRun :: es => countOnNext es

/-- Number of `onError` handler invocations in a trace. -/
def countOnError {α ε : Type} : List (Event α ε) → Nat
  | [] => 0
  | Event.onNext _ :: es => countOnError es
  | Event.onError _ :: es => countOnError es + 1
  | Event.onComplete :: es => countOnError es
  | Event.teardownRun :: es => countOnError es

/-- Number of `onComplete` handler invocations in a trace. -/
def countOnComplete {α ε : Type} : List (Event α ε) → Nat
  | [] => 0
  | Event.onNext _ :: es => countOnComplete es
  | Event.onError _ :: es => countOnComplete es
  | Event.onComplete :: es => countOnComplete es + 1
  | Event.teardownRun :: es => countOnComplete es

/-- Number of teardown runs in a trace. -/
def countTeardown {α ε : Type} : List (Event α ε) → Nat
  | [] => 0
  | Event.onNext _ :: es => countTeardown es
  | Event.onError _ :: es => countTeardown es
  | Event.onComplete :: es => countTeardown es
  | Event.teardownRun :: es => countTeardown es + 1

/-- Payload values delivered to the `onNext` handler, in order. -/
def nextValues {α ε : Type} : List (Event α ε) → List α
  | [] => []
  | Event.onNext v :: es => v :: nextValues es
  | Event.onError _ :: es => nextValues es
  | Event.onComplete :: es => nextValues es
  | Event.teardownRun :: es => nextValues es

/-- Embeds `enum HTTP_METHODS` (string values `POST`, `GET`). -/
inductive HTTP_METHODS where
  | HTTP_POST_METHOD
  | HTTP_GET_METHOD
deriving DecidableEq

/-- Embeds `enum Roles` (string values `user`, `admin`). -/
inductive Roles where
  | USER
  | ADMIN
deriving DecidableEq

/-- Embeds `interface IUser`. `createdAt: Date` is modelled opaquely as a
natural number (the source builds it with `new Date()`). -/
structure IUser where
  name : String
  age : Nat
  roles : List Roles
  createdAt : Nat
  isDeleated : Bool
deriving DecidableEq

/-- Embeds the `params: { id?: string }` field of `IRequestObject`. -/
structure IRequestParams where
  id : Option String
deriving DecidableEq

/-- Embeds `interface IRequestObject`. -/
structure IRequestObject where
  method : HTTP_METHODS
  host : String
  path : String
  params : IRequestParams
  body : Option IUser
deriving DecidableEq

/-- Embeds `userMock` (src/index.ts lines 146-152); `now` stands for the
opaque value of `new Date()`. -/
def userMock (now : Nat) : IUser :=
  { name := "User Name"
    age := 26
    roles := [Roles.USER, Roles.ADMIN]
    createdAt := now
    isDeleated := false }

/-- Embeds `requestsMock` (src/index.ts lines 154-170): one POST request with
a body and one GET request with a query id. -/
def requestsMock (now : Nat) : List IRequestObject :=
  [ { method := HTTP_METHODS.HTTP_POST_METHOD
      host := "service.example"
      path := "user"
      params := { id := none }
      body := some (userMock now) }
  , { method := HTTP_METHODS.HTTP_GET_METHOD
      host := "service.example"
      path := "user"
      params := { id := some "3f5h67s4s" }
      body := none } ]

/-- Embeds the handler set passed to `requests$.subscribe` (src/index.ts lines
185-189): `handleRequest`, `handleError` and `handleComplete` are all
supplied. Their return values (`\x7bstatus: 200\x7d` from `handleRequest`,
`\x7bstatus: 500\x7d` from `handleError`) are ignored by the core, so only
their presence is modelled. -/
def handlersMock : IHandlers :=
  { next := true, error := true, complete := true }

/-- Embeds `requests$ = Observable.from(requestsMock)` (src/index.ts line
183); the error type is `Empty` because `TErrorFunc` takes `never`. -/
def requestsObservable (now : Nat) : Observable IRequestObject Empty :=
  Observable.fromList (requestsMock now)

/-- Live Observer with a teardown attached and no `onError` handler. -/
def liveNoErrorHandler : Observer :=
  { handlers := { next := true, error := false, complete := true }
    isUnsubscribed := false
    teardown := true }

/-! Helper lemmas about single Observer methods. -/

/-- A `next` call never changes the Observer state. -/
theorem Observer.next_fst {α ε : Type} (s : Observer) (v : α) :
    (Observer.next (ε := ε) s v).1 = s := by
  unfold Observer.next
  split <;> rfl

/-- After `unsubscribe`, the flag is set and the other fields are unchanged. -/
theorem Observer.unsubscribe_fst {α ε : Type} (s : Observer) :
    (Observer.unsubscribe (α := α) (ε := ε) s).1 = { s with isUnsubscribed := true } := by
  unfold Observer.unsubscribe
  split <;> rfl

/-- After an `error` call the flag is set. -/
theorem Observer.error_isUnsubscribed {α ε : Type} (s : Observer) (e : ε) :
    (Observer.error (α := α) s e).1.isUnsubscribed = true := by
  unfold Observer.error
  split
  · rw [Observer.unsubscribe_fst]
  · simp_all

/-- After a `complete` call the flag is set. -/
theorem Observer.complete_isUnsubscribed {α ε : Type} (s : Observer) :
    (Observer.complete (α := α) (ε := ε) s).1.isUnsubscribed = true := by
  unfold Observer.complete
  split
  · rw [Observer.unsubscribe_fst]
  · simp_all

/-- No Observer method changes the handler set. -/
theorem applyOp_handlers {α ε : Type} (s : Observer) (op : Op α ε) :
    (applyOp s op).1.handlers = s.handlers := by
  cases op with
  | next v => simp only [applyOp]; rw [Observer.next_fst]
  | error e =>
      simp only [applyOp]
      unfold Observer.error
      split
      · rw [Observer.unsubscribe_fst]
      · rfl
  | complete =>
      simp only [applyOp]
      unfold Observer.complete
      split
      · rw [Observer.unsubscribe_fst]
      · rfl
  | unsubscribe => simp only [applyOp]; rw [Observer.unsubscribe_fst]

/-- No Observer method changes whether a teardown is attached. -/
theorem applyOp_teardown {α ε : Type} (s : Observer) (op : Op α ε) :
    (applyOp s op).1.teardown = s.teardown := by
  cases op with
  | next v => simp only [applyOp]; rw [Observer.next_fst]
  | error e =>
      simp only [applyOp]
      unfold Observer.error
      split
      · rw [Observer.unsubscribe_fst]
      · rfl
  | complete =>
      simp only [applyOp]
      unfold Observer.complete
      split
      · rw [Observer.unsubscribe_fst]
      · rfl
  | unsubscribe => simp only [applyOp]; rw [Observer.unsubscribe_fst]

/-- Once the flag is set, no single call resets it. -/
theorem applyOp_mono {α ε : Type} (s : Observer) (op : Op α ε)
    (h : s.isUnsubscribed = true) : (applyOp s op).1.isUnsubscribed = true := by
  cases op with
  | next v => simp only [applyOp]; rw [Observer.next_fst]; exact h
  | error e => simp only [applyOp]; exact Observer.error_isUnsubscribed s e
  | complete => simp only [applyOp]; exact Observer.complete_isUnsubscribed s
  | unsubscribe => simp only [applyOp]; rw [Observer.unsubscribe_fst]

/-- Once the flag is set, no sequence of calls resets it. -/
theorem applyOps_mono {α ε : Type} (s : Observer) (ops : List (Op α ε))
    (h : s.isUnsubscribed = true) : (applyOps s ops).1.isUnsubscribed = true := by
  induction ops generalizing s with
  | nil => exact h
  | cons op ops ih =>
      simp only [applyOps]
      exact ih _ (applyOp_mono s op h)

/-- A sequence of calls never changes whether a teardown is attached. -/
theorem applyOps_teardown {α ε : Type} (s : Observer) (ops : List (Op α ε)) :
    (applyOps s ops).1.teardown = s.teardown := by
  induction ops generalizing s with
  | nil => rfl
  | cons op ops ih =>
      simp only [applyOps]
      rw [ih, applyOp_teardown]

/-- While no teardown is attached, no single call emits a teardown run. -/
theorem applyOp_no_teardownRun {α ε : Type} (s : Observer) (op : Op α ε)
    (ht : s.teardown = false) : Event.teardownRun ∉ (applyOp s op).2 := by
  cases op with
  | next v =>
      simp only [applyOp]
      unfold Observer.next
      split <;> simp
  | error e =>
      simp only [applyOp]
      unfold Observer.error Observer.unsubscribe
      simp only [ht, Bool.false_eq_true, if_false]
      split
      · split <;> simp
      · simp
  | complete =>
      simp only [applyOp]
      unfold Observer.complete Observer.unsubscribe
      simp only [ht, Bool.false_eq_true, if_false]
      split
      · split <;> simp
      · simp
  | unsubscribe =>
      simp only [applyOp]
      unfold Observer.unsubscribe
      simp [ht]

/-- While no teardown is attached, no sequence of calls emits a teardown run. -/
theorem applyOps_no_teardownRun {α ε : Type} (s : Observer) (ops : List (Op α ε))
    (ht : s.teardown = false) : Event.teardownRun ∉ (applyOps s ops).2 := by
  induction ops generalizing s with
  | nil => simp [applyOps]
  | cons op ops ih =>
      simp only [applyOps, List.mem_append]
      push_neg
      refine ⟨applyOp_no_teardownRun s op ht, ih _ ?_⟩
      rw [applyOp_teardown]
      exact ht

/-- Running a concatenation of call sequences runs them in order and
concatenates the traces. -/
theorem applyOps_append {α ε : Type} (s : Observer) (l1 l2 : List (Op α ε)) :
    applyOps s (l1 ++ l2) =
      ((applyOps (applyOps s l1).1 l2).1,
        (applyOps s l1).2 ++ (applyOps (applyOps s l1).1 l2).2) := by
  induction l1 generalizing s with
  | nil => simp [applyOps]
  | cons op ops ih => simp [applyOps, ih, List.append_assoc]

/-- A `next` call on a live Observer with an `onNext` handler delivers the
value and changes nothing. -/
theorem Observer.next_run {α ε : Type} (s : Observer) (v : α)
    (hn : s.handlers.next = true) (hu : s.isUnsubscribed = false) :
    Observer.next (ε := ε) s v = (s, [Event.onNext v]) := by
  unfold Observer.next
  simp [hn, hu]

/-- A block of `next` calls on a live Observer with an `onNext` handler
delivers each value in order and changes nothing. -/
theorem applyOps_mapNext {α ε : Type} (s : Observer) (values : List α)
    (hn : s.handlers.next = true) (hu : s.isUnsubscribed = false) :
    applyOps (ε := ε) s (values.map Op.next) = (s, values.map Event.onNext) := by
  induction values with
  | nil => simp [applyOps]
  | cons v vs ih =>
      simp only [List.map_cons, applyOps, applyOp]
      rw [Observer.next_run s v hn hu]
      simp [ih]

/-- A `complete` call on a live Observer with no teardown attached invokes the
`onComplete` handler when present and sets the flag; no teardown runs. -/
theorem Observer.complete_fresh {α ε : Type} (s : Observer)
    (hu : s.isUnsubscribed = false) (ht : s.teardown = false) :
    Observer.complete (α := α) (ε := ε) s =
      ({ s with isUnsubscribed := true },
        if s.handlers.complete then [Event.onComplete] else []) := by
  unfold Observer.complete Observer.unsubscribe
  simp [hu, ht]

/-- Characterization of a subscription to `Observable.from`: when an `onNext`
handler is present, the trace is the value sequence followed by the
`onComplete` invocation (when that handler is present), the final flag is set,
and the teardown is attached but was never run. -/
theorem subscribe_fromList {α ε : Type} (values : List α) (h : IHandlers)
    (hn : h.next = true) :
    Observable.subscribe (Observable.fromList (ε := ε) values) h =
      ({ handlers := h, isUnsubscribed := true, teardown := true },
        values.map Event.onNext ++ if h.complete then [Event.onComplete] else []) := by
  unfold Observable.subscribe Observable.fromList
  rw [applyOps_append, applyOps_mapNext (Observer.make h) values hn rfl]
  simp only [applyOps, applyOp]
  rw [Observer.complete_fresh (Observer.make h) rfl rfl]
  simp [Observer.make]

/-- The values delivered to `onNext` in a concatenated trace. -/
theorem nextValues_append {α ε : Type} (l1 l2 : List (Event α ε)) :
    nextValues (l1 ++ l2) = nextValues l1 ++ nextValues l2 := by
  induction l1 with
  | nil => rfl
  | cons e es ih => cases e <;> simp [nextValues, ih]

/-- A trace of pure `onNext` events delivers exactly its values. -/
theorem nextValues_map_onNext {α ε : Type} (values : List α) :
    nextValues (values.map (Event.onNext (ε := ε))) = values := by
  induction values with
  | nil => rfl
  | cons v vs ih => simp [nextValues, ih]

/-- A `complete` call on an already-unsubscribed Observer is a pure no-op. -/
theorem Observer.complete_noop {α ε : Type} (s : Observer)
    (hu : s.isUnsubscribed = true) :
    Observer.complete (α := α) (ε := ε) s = (s, []) := by
  unfold Observer.complete
  simp [hu]

/-- A single `complete` call invokes `onComplete` at most once and runs the
teardown at most once. -/
theorem Observer.complete_counts {α ε : Type} (s : Observer) :
    countOnComplete (Observer.complete (α := α) (ε := ε) s).2 ≤ 1 ∧
    countTeardown (Observer.complete (α := α) (ε := ε) s).2 ≤ 1 := by
  unfold Observer.complete Observer.unsubscribe
  cases hu : s.isUnsubscribed <;> cases hc : s.handlers.complete <;>
    cases ht : s.teardown <;> simp [countOnComplete, countTeardown]

/-- C1: the claim says only the first `unsubscribe()` call runs the teardown
and later calls are no-ops. The code has no guard on the previous value of
the flag, so evaluated on an Observer with a teardown attached, a second
`unsubscribe()` call runs the teardown again. -/
theorem C1_second_unsubscribe_reruns_teardown :
    (Observer.unsubscribe (α := Unit) (ε := Unit)
        (Observer.unsubscribe (α := Unit) (ε := Unit)
          { handlers := { next := true, error := true, complete := true },
            isUnsubscribed := false, teardown := true }).1).2
      = [Event.teardownRun] := rfl

/-- C2: in the `requestsMock` scenario the counts hold (`onNext` twice, no
`onError`, `onComplete` once, no teardown run during subscribe), but the
claim that the subsequent `unsubscribe()` on the handle is a no-op fails:
that call runs the teardown, which had been attached only after the producer
completed the subscription. -/
theorem C2_requestsMock_scenario :
    countOnNext (Observable.subscribe (requestsObservable 0) handlersMock).2 = 2 ∧
    countOnError (Observable.subscribe (requestsObservable 0) handlersMock).2 = 0 ∧
    countOnComplete (Observable.subscribe (requestsObservable 0) handlersMock).2 = 1 ∧
    countTeardown (Observable.subscribe (requestsObservable 0) handlersMock).2 = 0 ∧
    (Observer.unsubscribe (α := IRequestObject) (ε := Empty)
        (Observable.subscribe (requestsObservable 0) handlersMock).1).2
      = [Event.teardownRun] :=
  ⟨rfl, rfl, rfl, rfl, rfl⟩

/-- C3: for any synchronous producer whose terminal event fires during the
producer call, no teardown is attached at that transition, no teardown run
occurs during `subscribe`, and the first `unsubscribe()` on the returned
handle runs the teardown for the first time. -/
theorem C3_teardown_attached_after_producer {α ε : Type} (o : Observable α ε)
    (h : IHandlers)
    (hterm : (Observable.subscribe o h).1.isUnsubscribed = true) :
    (applyOps (Observer.make h) o.producerCalls).1.teardown = false ∧
    Event.teardownRun ∉ (Observable.subscribe o h).2 ∧
    (Observer.unsubscribe (α := α) (ε := ε) (Observable.subscribe o h).1).2
      = [Event.teardownRun] := by
  refine ⟨?_, ?_, ?_⟩
  · rw [applyOps_teardown]
    rfl
  · unfold Observable.subscribe
    exact applyOps_no_teardownRun (Observer.make h) o.producerCalls rfl
  · unfold Observable.subscribe Observer.unsubscribe
    simp

/-- Witness for C3 at the producer that completes at once. -/
theorem C3_witness :
    ((Observable.subscribe (Observable.mk ([Op.complete] : List (Op Unit Unit)))
        handlersMock).1.isUnsubscribed = true) ∧
    ((applyOps (Observer.make handlersMock)
        ([Op.complete] : List (Op Unit Unit))).1.teardown = false ∧
      Event.teardownRun ∉
        (Observable.subscribe (Observable.mk ([Op.complete] : List (Op Unit Unit)))
          handlersMock).2 ∧
      (Observer.unsubscribe (α := Unit) (ε := Unit)
          (Observable.subscribe (Observable.mk ([Op.complete] : List (Op Unit Unit)))
            handlersMock).1).2 = [Event.teardownRun]) :=
  ⟨by decide, C3_teardown_attached_after_producer _ _ (by decide)⟩

/-- C4: subscribing `Observable.from([a, b])` with `onNext` and `onComplete`
handlers present delivers `a` then `b` in order, then one `onComplete`
invocation, after which the Observer's flag is set. -/
theorem C4_from_pair_roundtrip {α ε : Type} (a b : α) (h : IHandlers)
    (hn : h.next = true) (hc : h.complete = true) :
    (Observable.subscribe (Observable.fromList (ε := ε) [a, b]) h).2
        = [Event.onNext a, Event.onNext b, Event.onComplete] ∧
    (Observable.subscribe (Observable.fromList (ε := ε) [a, b]) h).1.isUnsubscribed
        = true := by
  rw [subscribe_fromList [a, b] h hn]
  simp [hc]

/-- Witness for C4 at the payloads 0 and 1. -/
theorem C4_witness :
    (handlersMock.next = true ∧ handlersMock.complete = true) ∧
    ((Observable.subscribe (Observable.fromList (ε := Unit) [(0 : Nat), 1])
          handlersMock).2
        = [Event.onNext 0, Event.onNext 1, Event.onComplete] ∧
      (Observable.subscribe (Observable.fromList (ε := Unit) [(0 : Nat), 1])
          handlersMock).1.isUnsubscribed = true) :=
  ⟨⟨rfl, rfl⟩, C4_from_pair_roundtrip 0 1 handlersMock rfl rfl⟩

/-- C5: once `complete()` or `error(e)` has run on an Observer, a later
`next(v)` call, after any further sequence of calls, never invokes the
`onNext` handler. -/
theorem C5_next_after_terminal {α ε : Type} (s s1 : Observer)
    (hterm : s1 = (Observer.complete (α := α) (ε := ε) s).1 ∨
      ∃ e : ε, s1 = (Observer.error (α := α) s e).1)
    (ops : List (Op α ε)) (v : α) :
    (Observer.next (ε := ε) (applyOps s1 ops).1 v).2 = [] := by
  have h1 : s1.isUnsubscribed = true := by
    rcases hterm with h | ⟨e, h⟩
    · rw [h]
      exact Observer.complete_isUnsubscribed s
    · rw [h]
      exact Observer.error_isUnsubscribed s e
  have h2 : (applyOps s1 ops).1.isUnsubscribed = true := applyOps_mono s1 ops h1
  unfold Observer.next
  simp [h2]

/-- Witness for C5: right after `complete()` on a fresh Observer. -/
theorem C5_witness :
    ((Observer.complete (α := Unit) (ε := Unit) (Observer.make handlersMock)).1 =
        (Observer.complete (α := Unit) (ε := Unit) (Observer.make handlersMock)).1 ∨
      ∃ e : Unit,
        (Observer.complete (α := Unit) (ε := Unit) (Observer.make handlersMock)).1 =
          (Observer.error (α := Unit) (Observer.make handlersMock) e).1) ∧
    (Observer.next (ε := Unit)
        (applyOps
          (Observer.complete (α := Unit) (ε := Unit) (Observer.make handlersMock)).1
          ([] : List (Op Unit Unit))).1 ()).2 = [] :=
  ⟨Or.inl rfl,
    C5_next_after_terminal (Observer.make handlersMock) _ (Or.inl rfl) [] ()⟩

/-- C6: a single `error(e)` call on a live Observer with a teardown attached
sets the flag and runs the teardown exactly once, whether or not an `onError`
handler is present. -/
theorem C6_error_terminates_once {α ε : Type} (s : Observer) (e : ε)
    (hu : s.isUnsubscribed = false) (ht : s.teardown = true) :
    (Observer.error (α := α) s e).1.isUnsubscribed = true ∧
    countTeardown (Observer.error (α := α) s e).2 = 1 := by
  refine ⟨Observer.error_isUnsubscribed s e, ?_⟩
  unfold Observer.error Observer.unsubscribe
  cases herr : s.handlers.error <;> simp [hu, ht, herr, countTeardown]

/-- Witness for C6 at an Observer with no `onError` handler supplied. -/
theorem C6_witness :
    (liveNoErrorHandler.isUnsubscribed = false ∧
      liveNoErrorHandler.teardown = true) ∧
    ((Observer.error (α := Unit) liveNoErrorHandler ()).1.isUnsubscribed = true ∧
      countTeardown (Observer.error (α := Unit) liveNoErrorHandler ()).2 = 1) :=
  ⟨⟨rfl, rfl⟩, C6_error_terminates_once liveNoErrorHandler () rfl rfl⟩

/-- C7: for every Observer, calling `complete()` twice invokes `onComplete`
at most once and runs the teardown at most once; the second call is a pure
no-op. -/
theorem C7_complete_twice {α ε : Type} (s : Observer) :
    countOnComplete ((Observer.complete (α := α) (ε := ε) s).2 ++
        (Observer.complete (α := α) (ε := ε)
          (Observer.complete (α := α) (ε := ε) s).1).2) ≤ 1 ∧
    countTeardown ((Observer.complete (α := α) (ε := ε) s).2 ++
        (Observer.complete (α := α) (ε := ε)
          (Observer.complete (α := α) (ε := ε) s).1).2) ≤ 1 ∧
    Observer.complete (α := α) (ε := ε) (Observer.complete (α := α) (ε := ε) s).1
      = ((Observer.complete (α := α) (ε := ε) s).1, []) := by
  have hnoop :
      Observer.complete (α := α) (ε := ε) (Observer.complete (α := α) (ε := ε) s).1
        = ((Observer.complete (α := α) (ε := ε) s).1, []) :=
    Observer.complete_noop _ (Observer.complete_isUnsubscribed s)
  refine ⟨?_, ?_, hnoop⟩
  · rw [hnoop]
    simpa using (Observer.complete_counts (α := α) (ε := ε) s).1
  · rw [hnoop]
    simpa using (Observer.complete_counts (α := α) (ε := ε) s).2

/-- C8: once the flag is set, no sequence of `next`, `error`, `complete` and
`unsubscribe` calls ever resets it. -/
theorem C8_isUnsubscribed_monotone {α ε : Type} (s : Observer)
    (ops : List (Op α ε)) (h : s.isUnsubscribed = true) :
    (applyOps s ops).1.isUnsubscribed = true :=
  applyOps_mono s ops h

/-- Witness for C8 on a four-call sequence. -/
theorem C8_witness :
    (({ handlers := handlersMock, isUnsubscribed := true, teardown := false }
        : Observer).isUnsubscribed = true) ∧
    (applyOps
        ({ handlers := handlersMock, isUnsubscribed := true, teardown := false }
          : Observer)
        ([Op.next (), Op.unsubscribe, Op.complete, Op.error ()]
          : List (Op Unit Unit))).1.isUnsubscribed = true :=
  ⟨rfl, C8_isUnsubscribed_monotone _ _ rfl⟩

/-- C9: two subscriptions to the same `Observable.from` each receive the full
value sequence on their own handlers; `subscribe` builds a fresh Observer and
re-runs the producer per call, so neither trace depends on the other. -/
theorem C9_subscriptions_independent {α ε : Type} (values : List α)
    (h1 h2 : IHandlers) (hn1 : h1.next = true) (hn2 : h2.next = true) :
    nextValues (Observable.subscribe (Observable.fromList (ε := ε) values) h1).2
        = values ∧
    nextValues (Observable.subscribe (Observable.fromList (ε := ε) values) h2).2
        = values := by
  refine ⟨?_, ?_⟩
  · rw [subscribe_fromList values h1 hn1]
    show nextValues (values.map (Event.onNext (ε := ε)) ++
      if h1.complete then [Event.onComplete] else []) = values
    rw [nextValues_append, nextValues_map_onNext]
    split <;> simp [nextValues]
  · rw [subscribe_fromList values h2 hn2]
    show nextValues (values.map (Event.onNext (ε := ε)) ++
      if h2.complete then [Event.onComplete] else []) = values
    rw [nextValues_append, nextValues_map_onNext]
    split <;> simp [nextValues]

/-- Witness for C9 on the sequence 1, 2 and two different handler sets. -/
theorem C9_witness :
    (handlersMock.next = true ∧
      ({ next := true, error := false, complete := false } : IHandlers).next
        = true) ∧
    (nextValues (Observable.subscribe (Observable.fromList (ε := Unit) [(1 : Nat), 2])
          handlersMock).2 = [1, 2] ∧
      nextValues (Observable.subscribe (Observable.fromList (ε := Unit) [(1 : Nat), 2])
          { next := true, error := false, complete := false }).2 = [1, 2]) :=
  ⟨⟨rfl, rfl⟩, C9_subscriptions_independent [1, 2] handlersMock _ rfl rfl⟩

/-- C10: a `next(v)` call never changes the Observer state (flag, handlers
and teardown all unchanged); when the flag is set it emits nothing, and when
it is clear it only invokes the `onNext` handler when present, whose return
value has no effect on the Observer. -/
theorem C10_next_frame {α ε : Type} (s : Observer) (v : α) :
    (Observer.next (ε := ε) s v).1 = s ∧
    (s.isUnsubscribed = true → (Observer.next (ε := ε) s v).2 = []) ∧
    (s.isUnsubscribed = false →
      (Observer.next (ε := ε) s v).2
        = if s.handlers.next then [Event.onNext v] else []) := by
  refine ⟨Observer.next_fst s v, ?_, ?_⟩
  · intro hu
    unfold Observer.next
    simp [hu]
  · intro hu
    unfold Observer.next
    cases hn : s.handlers.next <;> simp [hu, hn]

/-- Witness for C10 on a fresh Observer. -/
theorem C10_witness :
    (Observer.next (ε := Unit) (Observer.make handlersMock) ()).2
      = if (Observer.make handlersMock).handlers.next then [Event.onNext ()]
        else [] :=
  (C10_next_frame (Observer.make handlersMock) ()).2.2 rfl
